import Mathlib

/-!
Shallow embedding of the change-detection pipeline of this repository
(services `ml_service.py`, `job_service.py` / `worker_tasks.py`,
`validation_service.py`, `stac_service.py`), together with theorems that
settle the frozen claims about it.

Rasters are modelled as nested lists of rationals, machine floats as `ℚ`
(no rounding is relevant to any claim), Python exceptions as `Except`,
and `numpy` randomness as an explicit record of the values the random
number generator returns during one call.
-/

namespace ChangeDetection

/-- A pixel coordinate `(row, col)` in a 2-D raster. -/
abbrev Pos := ℕ × ℕ

/-- A 2-D raster of rational values (the change-probability map), row major. -/
abbrev Grid := List (List ℚ)

/-- Python `np.clip(x, 0, 1)`. -/
def clip01 (x : ℚ) : ℚ := max 0 (min 1 x)

/-- Value of a grid at a pixel, `0` outside (the code only samples inside). -/
def pixelValue (g : Grid) (p : Pos) : ℚ := (g.getD p.1 []).getD p.2 0

/-- All pixel coordinates of a grid (row index, then column index within that row). -/
def allCoords (g : Grid) : List Pos :=
  (List.range g.length).flatMap (fun r => (List.range ((g.getD r []).length)).map (fun c => (r, c)))

/-- The mask `binary_mask = change_map > confidence_threshold` of `postprocess_results`
(`ml_service.py`), as the list of pixels whose probability strictly exceeds
the threshold. -/
def maskPixels (g : Grid) (t : ℚ) : List Pos :=
  (allCoords g).filter (fun p => t < pixelValue g p)

/-- Eight-neighbourhood adjacency of pixels (the default full connectivity used by
`skimage.measure.label` on a 2-D mask). -/
def adj8 (p q : Pos) : Bool :=
  (p ≠ q) && (p.1 ≤ q.1 + 1) && (q.1 ≤ p.1 + 1) && (p.2 ≤ q.2 + 1) && (q.2 ≤ p.2 + 1)

/-- One closure step of a flood fill: move every remaining pixel adjacent to the
current component into it. -/
def growStep (s r : List Pos) : List Pos × List Pos :=
  (s ++ r.filter (fun q => s.any (fun p => adj8 p q)),
   r.filter (fun q => !(s.any (fun p => adj8 p q))))

/-- Iterated closure steps (fuel-bounded flood fill). -/
def growN : ℕ → List Pos → List Pos → List Pos × List Pos
  | 0, s, r => (s, r)
  | n + 1, s, r =>
    let sr := growStep s r
    growN n sr.1 sr.2

/-- Connected-component labelling of a pixel list (`skimage.measure.label`):
repeatedly extract the connected component of the first remaining pixel. -/
def componentsAux : ℕ → List Pos → List (List Pos)
  | 0, _ => []
  | _ + 1, [] => []
  | n + 1, p :: rest =>
    let sr := growN (rest.length + 1) [p] rest
    sr.1 :: componentsAux n sr.2

/-- The connected components of a list of mask pixels. -/
def components (ps : List Pos) : List (List Pos) := componentsAux ps.length ps

/-- A detection produced by `postprocess_results`: the component's pixel mask
stands for the vectorized polygon geometry (`rasterio.features.shapes` is a
bijective re-encoding of the mask). -/
structure Detection where
  pixels : List Pos
  confidence_score : ℚ
  area_sqm : ℚ
  change_type : String
  flagged : Bool
  flag_reasons : List String
deriving Repr, DecidableEq

/-- Scikit-image `region.mean_intensity`: mean change probability over the component's pixels. -/
def meanIntensity (g : Grid) (comp : List Pos) : ℚ :=
  (comp.map (pixelValue g)).sum / comp.length

/-- The per-region body of `postprocess_results` (`ml_service.py`): compute
`area_sqm = pixel count * pixel area`, discard the region when it is below
`min_area_sqm`, otherwise build the detection with the mean probability as
confidence score and the `0.8` change-type cut. -/
def extractDetection (g : Grid) (pixelArea minAreaSqm : ℚ) (comp : List Pos) :
    Option Detection :=
  let area : ℚ := (comp.length : ℚ) * pixelArea
  if area < minAreaSqm then none
  else
    let conf := meanIntensity g comp
    some { pixels := comp
           confidence_score := conf
           area_sqm := area
           change_type := if (8 : ℚ)/10 < conf then "new_construction" else "unknown"
           flagged := false
           flag_reasons := [] }

/-- Model of `MLService.postprocess_results` (`ml_service.py`): binarize at the
confidence threshold, label connected components, and turn each
sufficiently large component into a detection. -/
def postprocess_results (g : Grid) (pixelArea : ℚ) (confidenceThreshold : ℚ)
    (minAreaSqm : ℚ) : List Detection :=
  (components (maskPixels g confidenceThreshold)).filterMap
    (extractDetection g pixelArea minAreaSqm)

/-- An `xarray.DataArray` as the pipeline sees it: a `(band, row, col)` value
cube plus the `collection` attribute used to pick the normalization. -/
structure DataArray where
  data : List (List (List ℚ))
  collection : String
deriving Repr, DecidableEq

/-- The shape of a data array, as the nested lengths of its axes (for the
rectangular arrays `numpy` produces this is exactly `ndarray.shape`). -/
def arrShape (d : DataArray) : ℕ × List (ℕ × List ℕ) :=
  (d.data.length, d.data.map (fun band => (band.length, band.map List.length)))

/-- Substring test on character lists (Python `needle in haystack`). -/
def containsSub (hay needle : List Char) : Bool :=
  (List.range (hay.length + 1)).any (fun i => needle.isPrefixOf (hay.drop i))

/-- Python `"sentinel-2" in str(collection)`. -/
def isSentinel2 (collection : String) : Bool :=
  containsSub collection.data "sentinel-2".data

/-- Errors of the inference engine; `shapeMismatch` is the
`ValueError("Before and after images must have the same shape")` of
`preprocess_imagery`. -/
inductive MLError
  | shapeMismatch
deriving Repr, DecidableEq

/-- Per-band-value normalization of `preprocess_imagery`: optical values are
scaled by `1/10000` and clipped to `[0,1]`, SAR dB values are mapped by
`(v + 30)/50` and clipped to `[0,1]`. -/
def normalizeValue (optical : Bool) (v : ℚ) : ℚ :=
  if optical then clip01 (v / 10000) else clip01 ((v + 30) / 50)

/-- Model of `MLService.preprocess_imagery` (`ml_service.py`): reject shape mismatch,
normalize both rasters by the collection-dependent scale, and concatenate the
before and after bands along the channel axis. -/
def preprocess_imagery (before after : DataArray) :
    Except MLError (List (List (List ℚ))) :=
  if arrShape before ≠ arrShape after then .error .shapeMismatch
  else
    let optical := isSentinel2 before.collection
    let norm := fun (cube : List (List (List ℚ))) =>
      cube.map (fun band => band.map (fun row => row.map (normalizeValue optical)))
    .ok (norm before.data ++ norm after.data)

/-- The values drawn from `np.random` during one call of the backend
`_simple_difference_detection` (`backend/app/services/ml_service.py`):
`numChanges` from `randint(1, 4)`; per synthetic change a size from
`randint(10, 51)`, a corner from `randint(0, width - size)` and
`randint(0, height - size)`, and a confidence from `uniform(0.6, 0.95)`;
finally one `normal(0, 0.05)` noise value per pixel. -/
structure RandomDraws where
  numChanges : ℕ
  sizes : List ℕ
  xs : List ℕ
  ys : List ℕ
  confidences : List ℚ
  noise : ℕ → ℕ → ℚ

/-- The draw record lies in the support of the distributions the backend
fallback samples from (the gaussian noise is unconstrained). -/
def ValidDraws (h w : ℕ) (d : RandomDraws) : Prop :=
  1 ≤ d.numChanges ∧ d.numChanges < 4 ∧
    ∀ i < d.numChanges,
      10 ≤ d.sizes.getD i 0 ∧ d.sizes.getD i 0 < 51 ∧
      d.xs.getD i 0 + d.sizes.getD i 0 < w ∧
      d.ys.getD i 0 + d.sizes.getD i 0 < h ∧
      (3 : ℚ)/5 ≤ d.confidences.getD i 0 ∧ d.confidences.getD i 0 ≤ 19/20

instance (h w : ℕ) (d : RandomDraws) : Decidable (ValidDraws h w d) := by
  unfold ValidDraws; infer_instance

/-- An all-zero `h × w` grid (`np.zeros((height, width))`). -/
def zerosGrid (h w : ℕ) : Grid :=
  List.replicate h (List.replicate w (0 : ℚ))

/-- Assignment `change_map[y:y+size, x:x+size] = confidence`. -/
def setBlock (m : Grid) (y x size : ℕ) (conf : ℚ) : Grid :=
  m.mapIdx (fun r row =>
    if y ≤ r ∧ r < y + size then
      row.mapIdx (fun c v => if x ≤ c ∧ c < x + size then conf else v)
    else row)

/-- The backend `_simple_difference_detection`
(`backend/app/services/ml_service.py`): build an all-zero map of the input's
spatial shape, paint `numChanges` random square blocks with random confidence
values, then add per-pixel gaussian noise and clip to `[0,1]`.  The pixel
values of `before_data`/`after_data` are never read — only their shape. -/
def backend_simple_difference_detection (d : RandomDraws)
    (before_data _after_data : DataArray) : Grid :=
  let h := (before_data.data.getD 0 []).length
  let w := ((before_data.data.getD 0 []).getD 0 []).length
  let base := (List.range d.numChanges).foldl
    (fun m i =>
      setBlock m (d.ys.getD i 0) (d.xs.getD i 0) (d.sizes.getD i 0)
        (d.confidences.getD i 0))
    (zerosGrid h w)
  base.mapIdx (fun r row => row.mapIdx (fun c v => clip01 (v + d.noise r c)))

/-- A Python exception surfaced by the validation code. -/
inductive PyError
  | keyError (key : String)
deriving Repr, DecidableEq

/-- The keys of `geometry.__geo_interface__` for a shapely geometry object:
only `type` and `coordinates` (the zones loaded by `_load_protected_zones`
are bare shapely polygons, their GeoJSON feature properties are dropped). -/
def geoInterfaceKeys : List String := ["type", "coordinates"]

/-- Python dict subscription `d[key]`: `KeyError` when the key is absent. -/
def dictSubscript (keys : List String) (key : String) : Except PyError Unit :=
  if key ∈ keys then .ok () else .error (.keyError key)

/-- Lookup `zone.__geo_interface__['properties'].get('zone_type', 'protected_area')`
in `validate_detections`: the subscript on a shapely geometry's
`__geo_interface__` has no `properties` key, so this raises `KeyError`
before the default `protected_area` is ever produced. -/
def zoneTypeOf {G : Type} (_zone : G) : Except PyError String := do
  let _ ← dictSubscript geoInterfaceKeys "properties"
  pure "protected_area"

/-- A detection dictionary as the validator sees it, over an abstract geometry
type `G` (shapely geometries; `intersects` is passed in explicitly). -/
structure VDetection (G : Type) where
  geometry : G
  confidence_score : ℚ
  area_sqm : ℚ
  change_type : String
  flagged : Bool
  flag_reasons : List String
deriving Repr, DecidableEq

/-- The flag reason built for one intersecting zone:
`f"Intersects {zone_type}"`, where looking the zone type up raises. -/
def reasonOfZone {G : Type} (zone : G) : Except PyError String := do
  let zt ← zoneTypeOf zone
  pure ("Intersects " ++ zt)

/-- The body of the per-detection loop of `validate_detections`
(`validation_service.py`): flag the detection iff it intersects a relevant
zone, and when flagged, build one `"Intersects <zone_type>"` reason per
intersecting zone (in zone enumeration order). -/
def validateOne {G : Type} (intersects : G → G → Bool) (relevantZones : List G)
    (det : VDetection G) : Except PyError (VDetection G) :=
  let isInProtectedZone := relevantZones.any (fun z => intersects det.geometry z)
  if isInProtectedZone then
    match (relevantZones.filter (fun z => intersects det.geometry z)).mapM reasonOfZone with
    | .ok reasons => .ok { det with flagged := isInProtectedZone, flag_reasons := reasons }
    | .error e => .error e
  else
    .ok { det with flagged := isInProtectedZone, flag_reasons := [] }

/-- The body of the `try:` block of
`ValidationService.validate_detections` (`validation_service.py`): filter the
zones intersecting the AOI; if none, return the input unchanged; otherwise
run the per-detection loop.  Any raised exception is an `Except.error`. -/
def validateCore {G : Type} (intersects : G → G → Bool) (zones : List G)
    (detections : List (VDetection G)) (aoi : G) :
    Except PyError (List (VDetection G)) :=
  let relevantZones := zones.filter (fun z => intersects z aoi)
  if relevantZones.isEmpty then
    .ok detections
  else
    detections.mapM (validateOne intersects relevantZones)

/-- Model of `ValidationService.validate_detections` with its catch-all
`except: return detections`. -/
def validate_detections {G : Type} (intersects : G → G → Bool) (zones : List G)
    (detections : List (VDetection G)) (aoi : G) : List (VDetection G) :=
  match validateCore intersects zones detections aoi with
  | .ok r => r
  | .error _ => detections

/-- The fields of a detection other than `flagged`/`flag_reasons`. -/
def stripFlags {G : Type} (d : VDetection G) : G × ℚ × ℚ × String :=
  (d.geometry, d.confidence_score, d.area_sqm, d.change_type)

/-- Enum `JobStatus` (`app/models/schemas.py`). -/
inductive JobStatus
  | pending
  | processing
  | completed
  | failed
deriving Repr, DecidableEq

/-- The fields of a `Job` row touched by `update_job_status` and
`mark_job_failed` (`app/services/job_service.py`); timestamps are modelled as
set-or-not markers, which is all the update logic inspects. -/
structure Job where
  status : JobStatus
  progress : ℚ
  error_message : Option String
  result_cog_url : Option String
  vector_results_url : Option String
  started_at : Option Unit
  completed_at : Option Unit
deriving Repr, DecidableEq

/-- A freshly created job: `PENDING`, zero progress, nothing else set. -/
def initialJob : Job :=
  { status := .pending, progress := 0, error_message := none,
    result_cog_url := none, vector_results_url := none,
    started_at := none, completed_at := none }

/-- Schema `JobStatusUpdate` (`app/models/schemas.py`), with every field optional the
way `update_job_status` checks them (`is not None`). -/
structure JobStatusUpdate where
  status : Option JobStatus
  progress : Option ℚ
  error_message : Option String
  result_cog_url : Option String
  vector_results_url : Option String
deriving Repr, DecidableEq

/-- An update carrying only a status and a progress value, as the worker's
stage checkpoints do. -/
def progressUpdate (s : JobStatus) (p : ℚ) : JobStatusUpdate :=
  { status := some s, progress := some p, error_message := none,
    result_cog_url := none, vector_results_url := none }

/-- Model of `JobService.update_job_status` (`app/services/job_service.py`): copy the
provided fields onto the job, then set `started_at` on the first move to
`PROCESSING`, or `completed_at` on the first move to `COMPLETED`/`FAILED`
(forcing `progress = 100` on `COMPLETED`), and commit. -/
def update_job_status (job : Job) (u : JobStatusUpdate) : Job :=
  let job : Job := match u.status with
    | some s => { job with status := s }
    | none => job
  let job : Job := match u.progress with
    | some p => { job with progress := p }
    | none => job
  let job : Job := match u.error_message with
    | some m => { job with error_message := some m }
    | none => job
  let job : Job := match u.result_cog_url with
    | some url => { job with result_cog_url := some url }
    | none => job
  let job : Job := match u.vector_results_url with
    | some url => { job with vector_results_url := some url }
    | none => job
  if u.status = some JobStatus.processing ∧ job.started_at = none then
    { job with started_at := some () }
  else if (u.status = some JobStatus.completed ∨ u.status = some JobStatus.failed) ∧
      job.completed_at = none then
    if u.status = some JobStatus.completed then
      { job with completed_at := some (), progress := 100 }
    else
      { job with completed_at := some () }
  else job

/-- Model of `JobService.mark_job_failed` (`app/services/job_service.py`): set the job
`FAILED` with the error message, stamp `completed_at`, and reset
`progress` to `0.0`. -/
def mark_job_failed (job : Job) (errorMessage : String) : Job :=
  { job with
      status := .failed
      error_message := some errorMessage
      completed_at := some ()
      progress := 0 }

/-- One persisted status-update call made during a job run: either
`update_job_status` with an update record, or `mark_job_failed`. -/
inductive StatusCall
  | update (u : JobStatusUpdate)
  | markFailed (msg : String)
deriving Repr, DecidableEq

/-- Apply one status-update call to the persisted job row. -/
def applyCall (job : Job) : StatusCall → Job
  | .update u => update_job_status job u
  | .markFailed msg => mark_job_failed job msg

/-- The persisted progress values seen along a sequence of status-update
calls, starting from the job's current row. -/
def progressTrace (job : Job) : List StatusCall → List ℚ
  | [] => [job.progress]
  | c :: calls => job.progress :: progressTrace (applyCall job c) calls

/-- A list of rationals is non-decreasing. -/
def nonDecreasing : List ℚ → Bool
  | [] => true
  | [_] => true
  | a :: b :: rest => (decide (a ≤ b)) && nonDecreasing (b :: rest)

/-- The stage-checkpoint updates `process_change_detection_job`
(`backend/app/services/worker_tasks.py`) issues on the success path, in
order: `PROCESSING` at 0, 10, 20, 35, 50, 75, 85 percent and the terminal
`COMPLETED` at 100 percent. -/
def workerCheckpointUpdates : List JobStatusUpdate :=
  [progressUpdate .processing 0, progressUpdate .processing 10,
   progressUpdate .processing 20, progressUpdate .processing 35,
   progressUpdate .processing 50, progressUpdate .processing 75,
   progressUpdate .processing 85, progressUpdate .completed 100]

/-- The terminal update the worker's `except` branch issues on failure:
`FAILED` with an error message and no progress value. -/
def workerFailedUpdate (msg : String) : JobStatusUpdate :=
  { status := some .failed, progress := none, error_message := some msg,
    result_cog_url := none, vector_results_url := none }

/-- The status-update call sequence of one worker run that fails after the
first `k` checkpoints and marks the job `FAILED` through
`update_job_status`, as `process_change_detection_job` does. -/
def workerRunFailingAt (k : ℕ) (msg : String) : List StatusCall :=
  ((workerCheckpointUpdates.take k).map StatusCall.update) ++
    [StatusCall.update (workerFailedUpdate msg)]

/-- The simplified item dictionary `search_imagery` (`stac_service.py`) builds
from a STAC item. -/
structure ImageItem where
  id : String
  collection : String
  datetime : Option String
  cloud_cover : Option ℚ
deriving Repr, DecidableEq

/-- Lexicographic comparison of character lists (Python string `<=` on the
ISO datetime strings). -/
def charListLe : List Char → List Char → Bool
  | [], _ => true
  | _ :: _, [] => false
  | a :: restA, b :: restB => if a = b then charListLe restA restB else decide (a < b)

/-- Sort key comparison for optical results: ascending `cloud_cover`, a
missing value counting as `100` (`x.get("cloud_cover", 100)`). -/
def cloudCoverLe (x y : ImageItem) : Bool :=
  decide (x.cloud_cover.getD 100 ≤ y.cloud_cover.getD 100)

/-- Sort key comparison for SAR results: ascending acquisition datetime
string (`x.get("datetime", "")`). -/
def datetimeLe (x y : ImageItem) : Bool :=
  charListLe (x.datetime.getD "").data (y.datetime.getD "").data

/-- Insert into a sorted list, after any elements it compares equal to. -/
def insertSorted {α : Type} (le : α → α → Bool) (a : α) : List α → List α
  | [] => [a]
  | b :: rest => if le a b then a :: b :: rest else b :: insertSorted le a rest

/-- Stable ascending insertion sort (the semantics of Python `list.sort`). -/
def sortStable {α : Type} (le : α → α → Bool) : List α → List α
  | [] => []
  | x :: xs => insertSorted le x (sortStable le xs)

/-- The result post-processing of `STACService.search_imagery`
(`stac_service.py`): the items the external catalog returned for the query
are sorted ascending by cloud cover for Sentinel-2 collections and by
datetime otherwise (Python `list.sort` is a stable ascending sort). -/
def search_imagery (collections : List String) (catalogItems : List ImageItem) :
    List ImageItem :=
  if (collections.map isSentinel2).any id then
    sortStable cloudCoverLe catalogItems
  else
    sortStable datetimeLe catalogItems

/-- Model of `STACService.get_best_imagery_pair` (`stac_service.py`), over the raw item
lists the external catalog returns for its four searches (Sentinel-2 around
`date_from` and `date_to`, then Sentinel-1 around each): if both optical
windows yield candidates return the best of each tagged `sentinel-2`; else
if both SAR windows yield candidates return the best of each tagged
`sentinel-1`; else `(None, None, "none")`. -/
def get_best_imagery_pair (s2Before s2After sarBefore sarAfter : List ImageItem) :
    Option ImageItem × Option ImageItem × String :=
  let beforeSearch := search_imagery ["sentinel-2-l2a"] s2Before
  let afterSearch := search_imagery ["sentinel-2-l2a"] s2After
  if beforeSearch ≠ [] ∧ afterSearch ≠ [] then
    (beforeSearch.head?, afterSearch.head?, "sentinel-2")
  else
    let beforeSar := search_imagery ["sentinel-1-grd"] sarBefore
    let afterSar := search_imagery ["sentinel-1-grd"] sarAfter
    if beforeSar ≠ [] ∧ afterSar ≠ [] then
      (beforeSar.head?, afterSar.head?, "sentinel-1")
    else
      (none, none, "none")

/-! Concrete scenario instances used by the counterexample and witness
theorems below.  Geometry is instantiated with `ℕ` tokens and an explicit
intersection relation, as `validate_detections` only observes geometries
through `intersects`. -/

/-- An intersection relation under which every geometry intersects every
other (a detection inside a protected zone inside the AOI). -/
def exIntersects : ℕ → ℕ → Bool := fun _ _ => true

/-- One protected zone (geometry token `0`). -/
def exZones : List ℕ := [0]

/-- The AOI geometry token. -/
def exAoi : ℕ := 2

/-- A detection lying inside the protected zone, unflagged as the extractor
produced it. -/
def exVDetection : VDetection ℕ :=
  { geometry := 1, confidence_score := 1/2, area_sqm := 100,
    change_type := "unknown", flagged := false, flag_reasons := [] }

/-- The detection list handed to the validator. -/
def exDetections : List (VDetection ℕ) := [exVDetection]

/-- A probability raster with two high-probability pixels separated by a
medium-probability pixel. -/
def exGrid3 : Grid := [[9/10, 1/2, 9/10]]

/-- A single-pixel high-probability raster. -/
def exGrid1 : Grid := [[9/10]]

/-- The detection extracted from `exGrid1` at threshold `1/2` with pixel
area `100`. -/
def exMLDetection : Detection :=
  { pixels := [(0, 0)], confidence_score := 9/10, area_sqm := 100,
    change_type := "new_construction", flagged := false, flag_reasons := [] }

/-- A one-band `2 × 2` Sentinel-2 raster. -/
def exArr2x2 : DataArray :=
  { data := [[[0, 0], [0, 0]]], collection := "sentinel-2-l2a" }

/-- A one-band `2 × 3` Sentinel-2 raster (mismatched shape). -/
def exArr2x3 : DataArray :=
  { data := [[[0, 0, 0], [0, 0, 0]]], collection := "sentinel-2-l2a" }

/-- A one-band `11 × 11` all-zero Sentinel-2 raster (the smallest spatial
shape on which the backend fallback's `randint(0, width - size)` draw is
well defined). -/
def exArr11 : DataArray :=
  { data := [List.replicate 11 (List.replicate 11 (0 : ℚ))],
    collection := "sentinel-2-l2a" }

/-- The same shape as `exArr11` with different pixel values. -/
def exArr11Alt : DataArray :=
  { data := [List.replicate 11 (List.replicate 11 (5000 : ℚ))],
    collection := "sentinel-2-l2a" }

/-- One run's random draws for the backend fallback: one synthetic change,
size 10 at the origin with confidence 0.6, and zero gaussian noise. -/
def exDraws1 : RandomDraws :=
  { numChanges := 1, sizes := [10], xs := [0], ys := [0],
    confidences := [3/5], noise := fun _ _ => 0 }

/-- Another run's random draws, identical except that the gaussian noise at
pixel `(0, 0)` is `0.01`. -/
def exDraws2 : RandomDraws :=
  { numChanges := 1, sizes := [10], xs := [0], ys := [0],
    confidences := [3/5], noise := fun r c => if r = 0 ∧ c = 0 then 1/100 else 0 }

/-- A Sentinel-2 catalog item; the same acquisition can top both the
before-window and the after-window search when the windows overlap. -/
def exItem : ImageItem :=
  { id := "S2A_MSIL2A_20240101", collection := "sentinel-2-l2a",
    datetime := some "2024-01-01T05:30:00Z", cloud_cover := some 5 }

/-! The rational arithmetic of the `Rat` core operations is irreducible for
the elaborator; making it semireducible within this namespace lets `decide`
evaluate the embedded pipeline on concrete rasters. -/
attribute [local semireducible] Rat.mul Rat.add Rat.inv Rat.sub

/-- Binding a successful `Except` computation runs the continuation. -/
theorem exceptBind_ok {ε α β : Type} (a : α) (f : α → Except ε β) :
    (Except.ok a >>= f : Except ε β) = f a := rfl

/-- Binding a failed `Except` computation propagates the error. -/
theorem exceptBind_error {ε α β : Type} (e : ε) (f : α → Except ε β) :
    ((Except.error e : Except ε α) >>= f) = Except.error e := rfl

/-- When `mapM` over `Except` succeeds and the element function preserves an
observation, the observation of the output list equals that of the input. -/
theorem mapM_except_ok_map {α β γ ε : Type} (f : α → Except ε β) (g : β → γ) (h : α → γ)
    (hf : ∀ a b, f a = Except.ok b → g b = h a) :
    ∀ (l : List α) (out : List β), l.mapM f = Except.ok out → out.map g = l.map h := by
  intro l
  induction l with
  | nil =>
    intro out hout
    simp only [List.mapM_nil] at hout
    cases hout
    simp
  | cons a t ih =>
    intro out hout
    rw [List.mapM_cons] at hout
    cases hfa : f a with
    | error e =>
      rw [hfa, exceptBind_error] at hout
      exact Except.noConfusion hout
    | ok b =>
      rw [hfa, exceptBind_ok] at hout
      cases hmt : t.mapM f with
      | error e =>
        rw [hmt, exceptBind_error] at hout
        exact Except.noConfusion hout
      | ok bs =>
        rw [hmt, exceptBind_ok] at hout
        cases hout
        simp [List.map_cons, hf a b hfa, ih bs hmt]

/-- A successful per-detection validation changes only the flag fields. -/
theorem validateOne_ok_stripFlags {G : Type} (intersects : G → G → Bool)
    (relevantZones : List G) (det r : VDetection G)
    (h : validateOne intersects relevantZones det = Except.ok r) :
    stripFlags r = stripFlags det := by
  simp only [validateOne] at h
  split at h
  · split at h
    · cases h; rfl
    · exact Except.noConfusion h
  · cases h; rfl

/-- Claim C3: for every input list of detections and every AOI geometry, `validate`
returns a list of exactly the same length as the input, in the same order,
with every detection's geometry (and confidence, area and change type)
unchanged; only the `flagged` and `flag_reasons` fields may differ. -/
theorem C3_validate_preserves_detections {G : Type} (intersects : G → G → Bool)
    (zones : List G) (detections : List (VDetection G)) (aoi : G) :
    (validate_detections intersects zones detections aoi).length = detections.length ∧
    (validate_detections intersects zones detections aoi).map stripFlags =
      detections.map stripFlags := by
  have hmap : (validate_detections intersects zones detections aoi).map stripFlags =
      detections.map stripFlags := by
    unfold validate_detections
    cases hc : validateCore intersects zones detections aoi with
    | error e => rfl
    | ok r =>
      simp only [validateCore] at hc
      split at hc
      · cases hc; rfl
      · exact mapM_except_ok_map (validateOne intersects _) stripFlags stripFlags
          (fun det b hb => validateOne_ok_stripFlags intersects _ det b hb)
          detections r hc
  refine ⟨?_, hmap⟩
  have hlen := congrArg List.length hmap
  simpa using hlen

/-- Claim C10: whenever the body of `validate_detections` raises (any exception),
the catch-all returns the original input detection list unchanged, so the
caller receives no error signal. -/
theorem C10_validate_swallows_errors {G : Type} (intersects : G → G → Bool)
    (zones : List G) (detections : List (VDetection G)) (aoi : G) (e : PyError)
    (h : validateCore intersects zones detections aoi = Except.error e) :
    validate_detections intersects zones detections aoi = detections := by
  unfold validate_detections
  rw [h]

/-- Witness for C10: with one protected zone intersecting the AOI and one
detection intersecting that zone, the zone-type lookup raises `KeyError`
and the validator returns its input unchanged. -/
theorem C10_validate_swallows_errors_witness :
    validate_detections exIntersects exZones exDetections exAoi = exDetections :=
  C10_validate_swallows_errors exIntersects exZones exDetections exAoi
    (PyError.keyError "properties") (by rfl)

/-- Claim C4: evaluation at a failing input.  One protected zone intersects the AOI
and the detection intersects that zone, so the claim requires
`flagged = true` with reason list `["Intersects <zone_type>"]`; instead the
zone-type lookup `zone.__geo_interface__['properties']` raises `KeyError`
(a shapely geometry has no `properties` key), the catch-all swallows it,
and the detection comes back with `flagged = false` and no reasons. -/
theorem C4_flagging_raises_keyerror :
    validateCore exIntersects exZones exDetections exAoi =
      Except.error (PyError.keyError "properties") ∧
    validate_detections exIntersects exZones exDetections exAoi = exDetections ∧
    (validate_detections exIntersects exZones exDetections exAoi).map
      VDetection.flagged = [false] ∧
    (validate_detections exIntersects exZones exDetections exAoi).map
      VDetection.flag_reasons = [[]] := by
  refine ⟨rfl, rfl, rfl, rfl⟩

/-- The seed set survives the flood fill. -/
theorem subset_growN_fst (n : ℕ) : ∀ (s r : List Pos), s ⊆ (growN n s r).1 := by
  induction n with
  | zero => intro s r x hx; exact hx
  | succ n ih =>
    intro s r x hx
    simp only [growN]
    refine ih _ _ ?_
    simp only [growStep]
    exact List.mem_append_left _ hx

/-- The flood fill only collects pixels from the seed set or the remainder. -/
theorem growN_fst_subset (n : ℕ) : ∀ (s r : List Pos), (growN n s r).1 ⊆ s ++ r := by
  induction n with
  | zero => intro s r x hx; exact List.mem_append_left _ hx
  | succ n ih =>
    intro s r x hx
    simp only [growN] at hx
    have h1 := ih _ _ hx
    simp only [growStep] at h1
    rcases List.mem_append.mp h1 with h | h
    · rcases List.mem_append.mp h with h | h
      · exact List.mem_append_left _ h
      · exact List.mem_append_right _ (List.mem_filter.mp h).1
    · exact List.mem_append_right _ (List.mem_filter.mp h).1

/-- The flood fill never adds pixels to the remainder. -/
theorem growN_snd_subset (n : ℕ) : ∀ (s r : List Pos), (growN n s r).2 ⊆ r := by
  induction n with
  | zero => intro s r x hx; exact hx
  | succ n ih =>
    intro s r x hx
    simp only [growN] at hx
    have h1 := ih _ _ hx
    simp only [growStep] at h1
    exact (List.mem_filter.mp h1).1

/-- Every labelled component is a nonempty subset of the input pixel list. -/
theorem mem_componentsAux : ∀ (n : ℕ) (ps comp : List Pos),
    comp ∈ componentsAux n ps → comp ≠ [] ∧ comp ⊆ ps := by
  intro n
  induction n with
  | zero => intro ps comp h; simp [componentsAux] at h
  | succ n ih =>
    intro ps comp h
    cases ps with
    | nil => simp [componentsAux] at h
    | cons p rest =>
      simp only [componentsAux] at h
      rcases List.mem_cons.mp h with hc | hc
      · subst hc
        constructor
        · intro hnil
          have hp := subset_growN_fst (rest.length + 1) [p] rest
            (List.mem_singleton_self p)
          rw [hnil] at hp
          exact (List.not_mem_nil p) hp
        · intro x hx
          have hx2 := growN_fst_subset (rest.length + 1) [p] rest hx
          simpa using hx2
      · have h2 := ih _ _ hc
        refine ⟨h2.1, fun x hx => ?_⟩
        have h3 := growN_snd_subset (rest.length + 1) [p] rest (h2.2 hx)
        exact List.mem_cons_of_mem p h3

/-- Every connected component is a nonempty subset of the mask pixel list. -/
theorem mem_components (ps comp : List Pos) (h : comp ∈ components ps) :
    comp ≠ [] ∧ comp ⊆ ps :=
  mem_componentsAux ps.length ps comp h

/-- Every pixel of the binarized mask has probability strictly above the
threshold. -/
theorem maskPixels_lt (g : Grid) (t : ℚ) (p : Pos) (hp : p ∈ maskPixels g t) :
    t < pixelValue g p :=
  of_decide_eq_true (List.mem_filter.mp hp).2

/-- A list of rationals, each strictly above `t`, sums to more than
`t` times its length. -/
theorem mul_length_lt_sum (t : ℚ) : ∀ (l : List ℚ), l ≠ [] → (∀ x ∈ l, t < x) →
    t * l.length < l.sum := by
  intro l
  induction l with
  | nil => intro h _; exact absurd rfl h
  | cons x xs ih =>
    intro _ hall
    rcases eq_or_ne xs [] with h | h
    · subst h
      simpa using hall x (List.mem_cons_self x [])
    · have h1 := ih h (fun z hz => hall z (List.mem_cons_of_mem x hz))
      have h2 := hall x (List.mem_cons_self x xs)
      simp only [List.sum_cons, List.length_cons]
      push_cast
      linarith

/-- The mean probability over a nonempty set of pixels, each strictly above
the threshold, is strictly above the threshold. -/
theorem lt_meanIntensity (g : Grid) (t : ℚ) (comp : List Pos) (hne : comp ≠ [])
    (hall : ∀ p ∈ comp, t < pixelValue g p) : t < meanIntensity g comp := by
  unfold meanIntensity
  have hlen : (0 : ℚ) < (comp.length : ℚ) := by
    exact_mod_cast List.length_pos.mpr hne
  rw [lt_div_iff₀ hlen]
  have hne2 : comp.map (pixelValue g) ≠ [] := by simpa using hne
  have hall2 : ∀ x ∈ comp.map (pixelValue g), t < x := by
    intro x hx
    rcases List.mem_map.mp hx with ⟨p, hp, rfl⟩
    exact hall p hp
  have hsum := mul_length_lt_sum t (comp.map (pixelValue g)) hne2 hall2
  simpa using hsum

/-- What a successfully extracted detection records about its component. -/
theorem extractDetection_some {g : Grid} {pa ma : ℚ} {comp : List Pos} {d : Detection}
    (h : extractDetection g pa ma comp = some d) :
    ma ≤ d.area_sqm ∧ d.confidence_score = meanIntensity g comp ∧ d.pixels = comp := by
  simp only [extractDetection] at h
  split at h
  · exact Option.noConfusion h
  · rename_i hlt
    cases h
    exact ⟨le_of_not_lt hlt, rfl, rfl⟩

/-- A component is discarded exactly when its area is below the minimum. -/
theorem extractDetection_none_iff (g : Grid) (pa ma : ℚ) (comp : List Pos) :
    extractDetection g pa ma comp = none ↔ (comp.length : ℚ) * pa < ma := by
  simp only [extractDetection]
  split <;> simp_all

/-- The number of extracted detections is the number of components meeting
the minimum area. -/
theorem length_filterMap_extract (g : Grid) (pa ma : ℚ) :
    ∀ (cs : List (List Pos)),
      (cs.filterMap (extractDetection g pa ma)).length =
        cs.countP (fun comp => decide (ma ≤ (comp.length : ℚ) * pa)) := by
  intro cs
  induction cs with
  | nil => rfl
  | cons c cs ih =>
    cases hval : extractDetection g pa ma c with
    | none =>
      have hlt := (extractDetection_none_iff g pa ma c).mp hval
      simp [List.filterMap_cons, hval, List.countP_cons, ih, not_le.mpr hlt]
    | some d =>
      have hge : ¬ ((c.length : ℚ) * pa < ma) := fun hlt => by
        rw [(extractDetection_none_iff g pa ma c).mpr hlt] at hval
        exact Option.noConfusion hval
      simp [List.filterMap_cons, hval, List.countP_cons, ih, not_lt.mp hge]

/-- Claim C6: every detection returned by the extractor has `area_sqm` at least
`min_area_sqm`, and the detections are in bijection with the connected
components meeting the minimum area — sub-threshold components are
discarded and produce no detection. -/
theorem C6_detections_meet_min_area (g : Grid) (pixelArea t minAreaSqm : ℚ) :
    (∀ d ∈ postprocess_results g pixelArea t minAreaSqm, minAreaSqm ≤ d.area_sqm) ∧
    (postprocess_results g pixelArea t minAreaSqm).length =
      (components (maskPixels g t)).countP
        (fun comp => decide (minAreaSqm ≤ (comp.length : ℚ) * pixelArea)) := by
  constructor
  · intro d hd
    rcases List.mem_filterMap.mp hd with ⟨comp, _, hsome⟩
    exact (extractDetection_some hsome).1
  · exact length_filterMap_extract g pixelArea minAreaSqm _

/-- Witness for C6 at a one-pixel raster. -/
theorem C6_detections_meet_min_area_witness :
    (25 : ℚ) ≤ exMLDetection.area_sqm :=
  (C6_detections_meet_min_area exGrid1 100 (1/2) 25).1 exMLDetection (by decide)

/-- Claim C9: every detection returned by the extractor has a confidence score
strictly greater than the binarization threshold, being the mean of
per-pixel probabilities that each exceed the threshold. -/
theorem C9_confidence_exceeds_threshold (g : Grid) (pixelArea t minAreaSqm : ℚ)
    (d : Detection) (hd : d ∈ postprocess_results g pixelArea t minAreaSqm) :
    t < d.confidence_score := by
  rcases List.mem_filterMap.mp hd with ⟨comp, hcomp, hsome⟩
  obtain ⟨-, hconf, -⟩ := extractDetection_some hsome
  obtain ⟨hne, hsub⟩ := mem_components _ comp hcomp
  rw [hconf]
  exact lt_meanIntensity g t comp hne (fun p hp => maskPixels_lt g t p (hsub hp))

/-- Witness for C9 at a one-pixel raster. -/
theorem C9_confidence_exceeds_threshold_witness :
    (1 : ℚ)/2 < exMLDetection.confidence_score :=
  C9_confidence_exceeds_threshold exGrid1 100 (1/2) 25 exMLDetection (by decide)

/-- Claim C5 counterexample: lowering the threshold from `0.7` to `0.4` merges the
two high-probability pixels of `exGrid3` into one component, so the lower
threshold yields FEWER detections (1 against 2), refuting count
monotonicity. -/
theorem C5_detection_count_not_monotone :
    ((2 : ℚ)/5 < 7/10) ∧
    (postprocess_results exGrid3 100 (2/5) 25).length <
      (postprocess_results exGrid3 100 (7/10) 25).length := by
  refine ⟨by norm_num, by decide⟩

/-- Claim C5 (amended): a lower threshold binarizes at least as many pixels as a
higher one — the changed-pixel mask is superset-monotone, though the
detection COUNT is not (components can merge). -/
theorem C5_mask_monotone (g : Grid) (t1 t2 : ℚ) (h : t1 ≤ t2) :
    maskPixels g t2 ⊆ maskPixels g t1 := by
  intro p hp
  have hm := List.mem_filter.mp hp
  exact List.mem_filter.mpr
    ⟨hm.1, decide_eq_true (lt_of_le_of_lt h (of_decide_eq_true hm.2))⟩

/-- Witness for the amended C5. -/
theorem C5_mask_monotone_witness :
    maskPixels exGrid3 (7/10) ⊆ maskPixels exGrid3 (2/5) :=
  C5_mask_monotone exGrid3 (2/5) (7/10) (by norm_num)

/-- Claim C7: whenever the before/after rasters differ in shape (band count
included), `preprocess` fails with the shape-mismatch error and returns no
tensor. -/
theorem C7_preprocess_shape_mismatch (before after : DataArray)
    (h : arrShape before ≠ arrShape after) :
    preprocess_imagery before after = Except.error MLError.shapeMismatch := by
  unfold preprocess_imagery
  rw [if_pos h]

/-- Witness for C7: a `2 × 2` against a `2 × 3` raster. -/
theorem C7_preprocess_shape_mismatch_witness :
    preprocess_imagery exArr2x2 exArr2x3 = Except.error MLError.shapeMismatch :=
  C7_preprocess_shape_mismatch exArr2x2 exArr2x3 (by decide)

/-- The worker's terminal `FAILED` update through `update_job_status` leaves
the persisted progress unchanged (its `progress` field is `None`). -/
theorem update_failed_progress (j : Job) (msg : String) :
    (update_job_status j (workerFailedUpdate msg)).progress = j.progress := by
  by_cases hc : j.completed_at = none
  · simp [update_job_status, workerFailedUpdate, hc]
  · simp [update_job_status, workerFailedUpdate, hc]

/-- The progress trace of a run is independent of the failure message of its
terminal `FAILED` update. -/
theorem progressTrace_failed_msg (m1 m2 : String) :
    ∀ (cs : List StatusCall) (j : Job),
      progressTrace j (cs ++ [StatusCall.update (workerFailedUpdate m1)]) =
        progressTrace j (cs ++ [StatusCall.update (workerFailedUpdate m2)]) := by
  intro cs
  induction cs with
  | nil =>
    intro j
    simp [progressTrace, applyCall, update_failed_progress]
  | cons c cs ih =>
    intro j
    simp [progressTrace, ih]

/-- Claim C2 counterexample: a job that reaches the 50-percent checkpoint and is
then marked `FAILED` through `mark_job_failed` has its persisted progress
reset from 50 to 0 — the trace `[0, 0, 10, 20, 35, 50, 0]` is not
monotonically non-decreasing. -/
theorem C2_mark_job_failed_resets_progress :
    progressTrace initialJob
      (((workerCheckpointUpdates.take 5).map StatusCall.update) ++
        [StatusCall.markFailed "Job processing failed: no suitable imagery"]) =
      [0, 0, 10, 20, 35, 50, 0] ∧
    nonDecreasing (progressTrace initialJob
      (((workerCheckpointUpdates.take 5).map StatusCall.update) ++
        [StatusCall.markFailed "Job processing failed: no suitable imagery"])) =
      false := by
  exact ⟨by decide, by decide⟩

/-- Claim C2 (amended): along the status updates the worker actually issues through
`update_job_status` — the checkpoints at 0, 10, 20, 35, 50, 75, 85, 100
percent and, on failure after any prefix of them, the terminal `FAILED`
update (which carries no progress value) — the persisted progress is
monotonically non-decreasing; only the unused-by-the-worker
`mark_job_failed` path violates this by resetting progress to 0. -/
theorem C2_progress_monotone_within_run (k : ℕ) (msg : String) :
    nonDecreasing (progressTrace initialJob (workerRunFailingAt k msg)) = true ∧
    nonDecreasing (progressTrace initialJob
      (workerCheckpointUpdates.map StatusCall.update)) = true := by
  constructor
  · unfold workerRunFailingAt
    rw [progressTrace_failed_msg msg ""]
    rcases Nat.lt_or_ge k 9 with hk | hk
    · interval_cases k <;> decide
    · rw [List.take_of_length_le (by rw [show workerCheckpointUpdates.length = 8 from rfl]; omega)]
      decide
  · decide

/-- Claim C1: evaluation at a failing input.  The backend fallback
`_simple_difference_detection` builds its probability raster from `np.random`
draws: two draw sequences, both within the sampled distributions' supports,
give different rasters for the same before/after inputs, and the raster does
not depend on the input pixel values at all (only on the shape) — the
fallback is neither reproducible across runs nor derived from the actual
pixel data. -/
theorem C1_backend_fallback_nondeterministic :
    ValidDraws 11 11 exDraws1 ∧ ValidDraws 11 11 exDraws2 ∧
    backend_simple_difference_detection exDraws1 exArr11 exArr11 ≠
      backend_simple_difference_detection exDraws2 exArr11 exArr11 ∧
    backend_simple_difference_detection exDraws1 exArr11Alt exArr11Alt =
      backend_simple_difference_detection exDraws1 exArr11 exArr11 := by
  refine ⟨by decide, by decide, by decide, by decide⟩

/-- Claim C8 counterexample: when the same acquisition tops both the before and the
after optical windows, `get_best_imagery_pair` returns that pair (tagged
`sentinel-2`) rather than the not-found value `(None, None, "none")` — there
is no identical-id check. -/
theorem C8_same_acquisition_pair_returned :
    get_best_imagery_pair [exItem] [exItem] [] [] =
      (some exItem, some exItem, "sentinel-2") ∧
    (get_best_imagery_pair [exItem] [exItem] [] []).1.map ImageItem.id =
      (get_best_imagery_pair [exItem] [exItem] [] []).2.1.map ImageItem.id ∧
    get_best_imagery_pair [exItem] [exItem] [] [] ≠ (none, none, "none") := by
  refine ⟨by decide, by decide, by decide⟩

/-- Claim C8 (amended): whenever both optical windows yield candidates,
`get_best_imagery_pair` returns the best candidate of each window tagged
`sentinel-2` — even when both resolve to the same acquisition; `NotFound`
arises only when some window is empty at both the optical and SAR tiers. -/
theorem C8_returns_best_of_each_window (s2Before s2After sarBefore sarAfter : List ImageItem)
    (hb : search_imagery ["sentinel-2-l2a"] s2Before ≠ [])
    (ha : search_imagery ["sentinel-2-l2a"] s2After ≠ []) :
    get_best_imagery_pair s2Before s2After sarBefore sarAfter =
      ((search_imagery ["sentinel-2-l2a"] s2Before).head?,
       (search_imagery ["sentinel-2-l2a"] s2After).head?, "sentinel-2") := by
  simp only [get_best_imagery_pair]
  rw [if_pos ⟨hb, ha⟩]

/-- Witness for the amended C8: both windows hold the same single
acquisition and the pair is returned. -/
theorem C8_returns_best_of_each_window_witness :
    get_best_imagery_pair [exItem] [exItem] [] [] =
      ((search_imagery ["sentinel-2-l2a"] [exItem]).head?,
       (search_imagery ["sentinel-2-l2a"] [exItem]).head?, "sentinel-2") :=
  C8_returns_best_of_each_window [exItem] [exItem] [] [] (by decide) (by decide)

end ChangeDetection
